import Mathlib

/-!
Shallow embedding of `src/app.py`, a Streamlit behavioral mock-interview app.

The app keeps per-session state (lists of questions, responses and feedback,
a current-question index, and a quit flag) and mutates it in three button
handlers: "Start Mock Interview", "Submit Response" and "End Interview Early".
Model calls (LangChain `question_chain.run` / `feedback_chain.run`) are
embedded as an oracle function `ModelCall → Except String String`: `Except.ok`
is a returned completion, `Except.error` is a raised exception.  Each handler
is a pure function from the oracle, the form inputs and the current state to a
`HandlerResult`: the next state, the ordered list of model calls it issued,
and flags for the UI effects (`st.warning`, `st.error`, `st.stop`).

Python `str.strip()` and `str.lower()` are embedded as the character-list
functions `pyStrip` and `pyLower` below.
-/

/-- Python `str.strip()`: remove leading and trailing whitespace. -/
def pyStrip (s : String) : String :=
  String.mk (((s.data.dropWhile Char.isWhitespace).reverse.dropWhile
    Char.isWhitespace).reverse)

/-- Python `str.lower()`: lowercase every character. -/
def pyLower (s : String) : String :=
  String.mk (s.data.map Char.toLower)

/-- The per-session state, mirroring the five `st.session_state` keys
initialized at `src/app.py` lines 27-32. -/
structure SessionState where
  questions : List String
  current_question : Nat
  responses : List String
  feedback : List String
  quit : Bool
deriving Repr, DecidableEq

/-- Initial session state (`src/app.py` lines 27-32). -/
def initState : SessionState :=
  { questions := [], current_question := 0, responses := [], feedback := [],
    quit := false }

/-- One outbound model call.  `questionCall` carries the four template
variables of `question_prompt` (lines 63-78); `feedbackCall` carries the two
template variables of `feedback_prompt` (lines 82-92). -/
inductive ModelCall where
  | questionCall (job_title resume job_desc past_responses : String)
  | feedbackCall (question answer : String)
deriving Repr, DecidableEq

/-- The environment of model completions: for each call, either a completion
text or a raised exception message. -/
def Oracle : Type := ModelCall → Except String String

/-- Result of running one button handler: the next session state, the model
calls issued in order, and the UI effects (`st.warning`, `st.error`,
`st.stop`). -/
structure HandlerResult where
  state : SessionState
  calls : List ModelCall
  warned : Bool
  errored : Bool
  halted : Bool
deriving Repr, DecidableEq

/-- One line of the `past_responses` transcript:
`f"Q{i+1}: {questions[i]}\nA{i+1}: {responses[i]}"` (lines 135-138). -/
def transcriptLine (i : Nat) (q a : String) : String :=
  "Q" ++ toString (i + 1) ++ ": " ++ q ++ "\nA" ++ toString (i + 1) ++ ": " ++ a

/-- The `past_responses` transcript built in the submit handler
(lines 135-138): one line per element of `responses`, joined by blank lines. -/
def past_responses (questions responses : List String) : String :=
  String.intercalate "\n\n" ((List.range responses.length).map fun i =>
    transcriptLine i (questions.getD i "") (responses.getD i ""))

/-- `"Start Mock Interview"` handler (`src/app.py` lines 96-112).  If the
stripped job title or resume is empty it warns and changes nothing; otherwise
it resets all five state fields, issues one question call with empty
`past_responses`, and on success appends the stripped completion; on a raised
exception it shows an error and stops (`st.stop`). -/
def startMockInterview (job_title resume_text job_desc : String) (o : Oracle)
    (s : SessionState) : HandlerResult :=
  if pyStrip job_title = "" ∨ pyStrip resume_text = "" then
    { state := s, calls := [], warned := true, errored := false, halted := false }
  else
    let s0 : SessionState :=
      { questions := [], responses := [], feedback := [], current_question := 0,
        quit := false }
    let c := ModelCall.questionCall job_title resume_text job_desc ""
    match o c with
    | Except.ok output =>
        { state := { s0 with questions := s0.questions ++ [pyStrip output] },
          calls := [c], warned := false, errored := false, halted := false }
    | Except.error _ =>
        { state := s0, calls := [c], warned := false, errored := true,
          halted := true }

/-- The feedback text appended per turn (lines 128-133): the stripped
completion on success, the placeholder on a raised exception. -/
def feedbackText (r : Except String String) : String :=
  match r with
  | Except.ok fb => pyStrip fb
  | Except.error _ => "Feedback generation failed."

/-- Whether the feedback call raised (drives the `st.error` display at
line 133). -/
def feedbackFailed (r : Except String String) : Bool :=
  match r with
  | Except.ok _ => false
  | Except.error _ => true

/-- `"Submit Response"` handler (`src/app.py` lines 122-147).  A sentinel
answer (`strip().lower()` in `["quit", "exit"]`) only sets the quit flag; an
answer that is empty after stripping does nothing; otherwise the handler
appends the stripped answer to `responses`, issues the feedback call for the
current question and that answer (appending its text or the failure
placeholder), builds `past_responses` over all answered pairs, issues the
next-question call, and on success appends the stripped new question and
increments the index, while on a raised exception it sets the quit flag. -/
def submitResponse (job_title resume_text job_desc user_response : String)
    (o : Oracle) (s : SessionState) : HandlerResult :=
  if pyLower (pyStrip user_response) = "quit" ∨
      pyLower (pyStrip user_response) = "exit" then
    { state := { s with quit := true }, calls := [], warned := false,
      errored := false, halted := false }
  else if pyStrip user_response ≠ "" then
    let ans := pyStrip user_response
    let question := s.questions.getD s.current_question ""
    let s1 := { s with responses := s.responses ++ [ans] }
    let fbCall := ModelCall.feedbackCall question ans
    let s2 := { s1 with feedback := s1.feedback ++ [feedbackText (o fbCall)] }
    let past := past_responses s2.questions s2.responses
    let qCall := ModelCall.questionCall job_title resume_text job_desc past
    match o qCall with
    | Except.ok nq =>
        { state := { s2 with questions := s2.questions ++ [pyStrip nq],
                             current_question := s2.current_question + 1 },
          calls := [fbCall, qCall], warned := false,
          errored := feedbackFailed (o fbCall), halted := false }
    | Except.error _ =>
        { state := { s2 with quit := true }, calls := [fbCall, qCall],
          warned := false, errored := true, halted := false }
  else
    { state := s, calls := [], warned := false, errored := false,
      halted := false }

/-- `"End Interview Early"` handler (`src/app.py` lines 164-166): it sets the
quit flag and reruns; nothing else changes. -/
def endInterviewEarly (s : SessionState) : HandlerResult :=
  { state := { s with quit := true }, calls := [], warned := false,
    errored := false, halted := false }

/-- One rendered triple of the downloadable report
(`f"Q{i}: {q}\nA{i}: {a}\nFeedback: {f}"`, line 158). -/
def renderTriple (i : Nat) (q a f : String) : String :=
  "Q" ++ toString i ++ ": " ++ q ++ "\nA" ++ toString i ++ ": " ++ a ++
    "\nFeedback: " ++ f

/-- The completed-turn triples of the summary view:
`zip(questions, responses, feedback)` (lines 152 and 159). -/
def logTriples (s : SessionState) : List (String × String × String) :=
  s.questions.zip (s.responses.zip s.feedback)

/-- `full_log` (lines 157-160): the triples enumerated from 1, rendered, and
joined by blank lines. -/
def full_log (s : SessionState) : String :=
  String.intercalate "\n\n" ((logTriples s).enum.map fun p =>
    renderTriple (p.1 + 1) p.2.1 p.2.2.1 p.2.2.2)

/-- Result of the startup credential check (`src/app.py` lines 13-17). -/
structure StartupResult where
  errorShown : Bool
  halted : Bool
deriving Repr, DecidableEq

/-- Startup check of `GOOGLE_API_KEY` (lines 13-17): `os.getenv` yields
`none` when the variable is absent, and `if not api_key` is true both for
`none` and for the empty string; in those cases `st.error` shows a message
and `st.stop` halts before any further code runs. -/
def checkApiKey (api_key : Option String) : StartupResult :=
  match api_key with
  | none => { errorShown := true, halted := true }
  | some k =>
      if k = "" then { errorShown := true, halted := true }
      else { errorShown := false, halted := false }

/-- The condition under which the question/answer form is displayed, hence
under which the submit handler can run (`src/app.py` line 115). -/
def interviewActive (s : SessionState) : Prop :=
  s.quit = false ∧ s.current_question < s.questions.length

/-- The states reachable by the app: the initial state, closed under the
three button handlers; the submit handler only fires when the form is
displayed (line 115). -/
inductive Reachable : SessionState → Prop where
  | init : Reachable initState
  | start (s : SessionState) (jt rt jd : String) (o : Oracle) :
      Reachable s → Reachable (startMockInterview jt rt jd o s).state
  | submit (s : SessionState) (jt rt jd ans : String) (o : Oracle) :
      Reachable s → s.quit = false → s.current_question < s.questions.length →
      Reachable (submitResponse jt rt jd ans o s).state
  | endEarly (s : SessionState) :
      Reachable s → Reachable (endInterviewEarly s).state

/-- The length invariant of claim C9: responses and feedback always have the
same length, and questions has that length or one more. -/
def lengthInv (s : SessionState) : Prop :=
  s.feedback.length = s.responses.length ∧
    (s.questions.length = s.responses.length ∨
      s.questions.length = s.responses.length + 1)

/-- Strengthened inductive invariant: additionally, as long as the session
has not quit, the questions list is either empty (together with responses) or
exactly one longer than responses. -/
def strongInv (s : SessionState) : Prop :=
  s.feedback.length = s.responses.length ∧
    (s.questions.length = s.responses.length + 1 ∨
      (s.questions = [] ∧ s.responses = []) ∨
      (s.quit = true ∧ s.questions.length = s.responses.length))

/-! ### Branch characterizations of the handlers -/

/-- Start with a blank (after stripping) job title or resume: warn only,
change nothing (lines 97-98). -/
theorem start_invalid (jt rt jd : String) (o : Oracle) (s : SessionState)
    (h : pyStrip jt = "" ∨ pyStrip rt = "") :
    startMockInterview jt rt jd o s =
      { state := s, calls := [], warned := true, errored := false,
        halted := false } := by
  unfold startMockInterview
  rw [if_pos h]

/-- Start with valid inputs and a successful question call: the state is
reset and holds exactly the stripped completion (lines 99-109). -/
theorem start_ok (jt rt jd out : String) (o : Oracle) (s : SessionState)
    (h1 : pyStrip jt ≠ "") (h2 : pyStrip rt ≠ "")
    (h3 : o (ModelCall.questionCall jt rt jd "") = Except.ok out) :
    startMockInterview jt rt jd o s =
      { state := { questions := [pyStrip out], current_question := 0,
                   responses := [], feedback := [], quit := false },
        calls := [ModelCall.questionCall jt rt jd ""], warned := false,
        errored := false, halted := false } := by
  unfold startMockInterview
  rw [if_neg (by simp [h1, h2])]
  simp only [h3]
  rfl

/-- Start with valid inputs and a raised question call: the state is reset,
an error is shown and the script stops (lines 110-112). -/
theorem start_err (jt rt jd e : String) (o : Oracle) (s : SessionState)
    (h1 : pyStrip jt ≠ "") (h2 : pyStrip rt ≠ "")
    (h3 : o (ModelCall.questionCall jt rt jd "") = Except.error e) :
    startMockInterview jt rt jd o s =
      { state := initState, calls := [ModelCall.questionCall jt rt jd ""],
        warned := false, errored := true, halted := true } := by
  unfold startMockInterview
  rw [if_neg (by simp [h1, h2])]
  simp only [h3]
  rfl

/-- Submit of a sentinel answer: the quit flag is set, nothing else happens
(lines 123-124). -/
theorem submit_sentinel (jt rt jd ans : String) (o : Oracle) (s : SessionState)
    (h : pyLower (pyStrip ans) = "quit" ∨ pyLower (pyStrip ans) = "exit") :
    submitResponse jt rt jd ans o s =
      { state := { s with quit := true }, calls := [], warned := false,
        errored := false, halted := false } := by
  unfold submitResponse
  rw [if_pos h]

/-- Submit of an answer blank after stripping: nothing happens
(lines 123-125 fall through). -/
theorem submit_blank (jt rt jd ans : String) (o : Oracle) (s : SessionState)
    (h : pyStrip ans = "") :
    submitResponse jt rt jd ans o s =
      { state := s, calls := [], warned := false, errored := false,
        halted := false } := by
  unfold submitResponse
  rw [if_neg (by rw [h]; decide), if_neg (by rw [h]; decide)]

/-- Submit of a real answer with the next-question call succeeding: the
answer, a feedback text and the new question are appended and the index is
incremented (lines 125-143). -/
theorem submit_next_ok (jt rt jd ans nq : String) (o : Oracle)
    (s : SessionState)
    (h1 : ¬(pyLower (pyStrip ans) = "quit" ∨ pyLower (pyStrip ans) = "exit"))
    (h2 : pyStrip ans ≠ "")
    (h3 : o (ModelCall.questionCall jt rt jd
        (past_responses s.questions (s.responses ++ [pyStrip ans]))) =
      Except.ok nq) :
    submitResponse jt rt jd ans o s =
      { state :=
          { questions := s.questions ++ [pyStrip nq],
            current_question := s.current_question + 1,
            responses := s.responses ++ [pyStrip ans],
            feedback := s.feedback ++
              [feedbackText (o (ModelCall.feedbackCall
                (s.questions.getD s.current_question "") (pyStrip ans)))],
            quit := s.quit },
        calls :=
          [ModelCall.feedbackCall (s.questions.getD s.current_question "")
             (pyStrip ans),
           ModelCall.questionCall jt rt jd
             (past_responses s.questions (s.responses ++ [pyStrip ans]))],
        warned := false,
        errored := feedbackFailed (o (ModelCall.feedbackCall
          (s.questions.getD s.current_question "") (pyStrip ans))),
        halted := false } := by
  unfold submitResponse
  rw [if_neg h1, if_pos h2]
  simp only [h3]

/-- Submit of a real answer with the next-question call raising: the answer
and a feedback text are still appended, then the quit flag is set
(lines 125-146). -/
theorem submit_next_err (jt rt jd ans e : String) (o : Oracle)
    (s : SessionState)
    (h1 : ¬(pyLower (pyStrip ans) = "quit" ∨ pyLower (pyStrip ans) = "exit"))
    (h2 : pyStrip ans ≠ "")
    (h3 : o (ModelCall.questionCall jt rt jd
        (past_responses s.questions (s.responses ++ [pyStrip ans]))) =
      Except.error e) :
    submitResponse jt rt jd ans o s =
      { state :=
          { questions := s.questions,
            current_question := s.current_question,
            responses := s.responses ++ [pyStrip ans],
            feedback := s.feedback ++
              [feedbackText (o (ModelCall.feedbackCall
                (s.questions.getD s.current_question "") (pyStrip ans)))],
            quit := true },
        calls :=
          [ModelCall.feedbackCall (s.questions.getD s.current_question "")
             (pyStrip ans),
           ModelCall.questionCall jt rt jd
             (past_responses s.questions (s.responses ++ [pyStrip ans]))],
        warned := false, errored := true, halted := false } := by
  unfold submitResponse
  rw [if_neg h1, if_pos h2]
  simp only [h3]

/-! ### Concrete oracles used by the witnesses -/

/-- An environment in which every model call succeeds. -/
def demoOracle : Oracle := fun c =>
  match c with
  | ModelCall.questionCall _ _ _ _ => Except.ok " Tell me about a challenge. "
  | ModelCall.feedbackCall _ _ => Except.ok " Clear and relevant. "

/-- An environment in which the feedback call raises but the question call
succeeds. -/
def fbFailOracle : Oracle := fun c =>
  match c with
  | ModelCall.questionCall _ _ _ _ => Except.ok " Next question. "
  | ModelCall.feedbackCall _ _ => Except.error "rate limited"

/-- An environment in which every model call raises. -/
def failOracle : Oracle := fun _ => Except.error "connection reset"

/-! ### Claims -/

/-- C1: for every job title and resume text that are non-empty after
stripping whitespace, clicking Start Mock Interview (with the question call
returning a completion) leaves session state with exactly one question — the
completion stripped of surrounding whitespace — zero responses, zero feedback
entries, index 0, and a cleared quit flag. -/
theorem start_produces_single_question (jt rt jd out : String) (o : Oracle)
    (s : SessionState) (h1 : pyStrip jt ≠ "") (h2 : pyStrip rt ≠ "")
    (h3 : o (ModelCall.questionCall jt rt jd "") = Except.ok out) :
    (startMockInterview jt rt jd o s).state =
      { questions := [pyStrip out], current_question := 0, responses := [],
        feedback := [], quit := false } := by
  rw [start_ok jt rt jd out o s h1 h2 h3]

/-- Witness for C1 at concrete inputs. -/
theorem start_produces_single_question_witness :
    (startMockInterview "Backend Engineer" "5 years Go and distributed systems"
        "Not provided" demoOracle initState).state =
      { questions := ["Tell me about a challenge."], current_question := 0,
        responses := [], feedback := [], quit := false } := by
  rw [start_produces_single_question "Backend Engineer"
    "5 years Go and distributed systems" "Not provided"
    " Tell me about a challenge. " demoOracle initState (by decide) (by decide)
    rfl]
  decide

/-- C2: for every submitted answer that is non-empty after stripping and not
a sentinel, the handler (with both calls returning completions) performs, in
order: append of the stripped answer to responses, a feedback call scoped to
the current question and that answer with its stripped result appended,
construction of the `past_responses` transcript over all answered pairs, a
next-question call seeded with that transcript, and append of the stripped
new question with the index incremented. -/
theorem submit_turn_progression (jt rt jd ans fb nq : String) (o : Oracle)
    (s : SessionState)
    (h1 : ¬(pyLower (pyStrip ans) = "quit" ∨ pyLower (pyStrip ans) = "exit"))
    (h2 : pyStrip ans ≠ "")
    (hfb : o (ModelCall.feedbackCall (s.questions.getD s.current_question "")
        (pyStrip ans)) = Except.ok fb)
    (hq : o (ModelCall.questionCall jt rt jd
        (past_responses s.questions (s.responses ++ [pyStrip ans]))) =
      Except.ok nq) :
    submitResponse jt rt jd ans o s =
      { state :=
          { questions := s.questions ++ [pyStrip nq],
            current_question := s.current_question + 1,
            responses := s.responses ++ [pyStrip ans],
            feedback := s.feedback ++ [pyStrip fb],
            quit := s.quit },
        calls :=
          [ModelCall.feedbackCall (s.questions.getD s.current_question "")
             (pyStrip ans),
           ModelCall.questionCall jt rt jd
             (past_responses s.questions (s.responses ++ [pyStrip ans]))],
        warned := false, errored := false, halted := false } := by
  rw [submit_next_ok jt rt jd ans nq o s h1 h2 hq, hfb]
  rfl

/-- Witness for C2 at concrete inputs. -/
theorem submit_turn_progression_witness :
    submitResponse "Backend Engineer" "5 years Go" "Not provided"
        " I led a project. " demoOracle
        { questions := ["Q1"], current_question := 0, responses := [],
          feedback := [], quit := false } =
      { state :=
          { questions := ["Q1", "Tell me about a challenge."],
            current_question := 1,
            responses := ["I led a project."],
            feedback := ["Clear and relevant."],
            quit := false },
        calls :=
          [ModelCall.feedbackCall "Q1" "I led a project.",
           ModelCall.questionCall "Backend Engineer" "5 years Go"
             "Not provided" "Q1: Q1\nA1: I led a project."],
        warned := false, errored := false, halted := false } := by
  rw [submit_turn_progression "Backend Engineer" "5 years Go" "Not provided"
    " I led a project. " " Clear and relevant. " " Tell me about a challenge. "
    demoOracle
    { questions := ["Q1"], current_question := 0, responses := [],
      feedback := [], quit := false } (by decide) (by decide) rfl rfl]
  decide

/-- C3: a submitted answer whose stripped, lowercased form is "quit" or
"exit" only sets the quit flag — no model call, no change to the three lists
or the index — and the End Interview Early button does likewise. -/
theorem sentinel_or_end_button_quits (jt rt jd ans : String) (o : Oracle)
    (s : SessionState)
    (h : pyLower (pyStrip ans) = "quit" ∨ pyLower (pyStrip ans) = "exit") :
    submitResponse jt rt jd ans o s =
      { state := { s with quit := true }, calls := [], warned := false,
        errored := false, halted := false } ∧
    endInterviewEarly s =
      { state := { s with quit := true }, calls := [], warned := false,
        errored := false, halted := false } :=
  ⟨submit_sentinel jt rt jd ans o s h, rfl⟩

/-- Witness for C3 at concrete inputs. -/
theorem sentinel_or_end_button_quits_witness :
    submitResponse "Backend Engineer" "5 years Go" "Not provided" "  QUIT "
        demoOracle
        { questions := ["Q1"], current_question := 0, responses := [],
          feedback := [], quit := false } =
      { state :=
          { questions := ["Q1"], current_question := 0, responses := [],
            feedback := [], quit := true },
        calls := [], warned := false, errored := false, halted := false } ∧
    endInterviewEarly
        { questions := ["Q1"], current_question := 0, responses := [],
          feedback := [], quit := false } =
      { state :=
          { questions := ["Q1"], current_question := 0, responses := [],
            feedback := [], quit := true },
        calls := [], warned := false, errored := false, halted := false } :=
  sentinel_or_end_button_quits "Backend Engineer" "5 years Go" "Not provided"
    "  QUIT " demoOracle
    { questions := ["Q1"], current_question := 0, responses := [],
      feedback := [], quit := false } (by decide)

/-- C5: for a real (non-blank, non-sentinel) answer the handler never stops
the script; if the feedback call raises, the placeholder text is appended and
the next-question call is still issued; if the next-question call raises, the
quit flag is set and no new question is appended. -/
theorem model_failure_degrades_turn (jt rt jd ans : String) (o : Oracle)
    (s : SessionState)
    (h1 : ¬(pyLower (pyStrip ans) = "quit" ∨ pyLower (pyStrip ans) = "exit"))
    (h2 : pyStrip ans ≠ "") :
    (submitResponse jt rt jd ans o s).halted = false ∧
    (∀ e, o (ModelCall.feedbackCall (s.questions.getD s.current_question "")
          (pyStrip ans)) = Except.error e →
        (submitResponse jt rt jd ans o s).state.feedback =
          s.feedback ++ ["Feedback generation failed."] ∧
        (submitResponse jt rt jd ans o s).calls =
          [ModelCall.feedbackCall (s.questions.getD s.current_question "")
             (pyStrip ans),
           ModelCall.questionCall jt rt jd
             (past_responses s.questions (s.responses ++ [pyStrip ans]))]) ∧
    (∀ e, o (ModelCall.questionCall jt rt jd
          (past_responses s.questions (s.responses ++ [pyStrip ans]))) =
        Except.error e →
        (submitResponse jt rt jd ans o s).state.quit = true ∧
        (submitResponse jt rt jd ans o s).state.questions = s.questions ∧
        (submitResponse jt rt jd ans o s).state.current_question =
          s.current_question) := by
  cases hq : o (ModelCall.questionCall jt rt jd
      (past_responses s.questions (s.responses ++ [pyStrip ans]))) with
  | ok nq =>
      rw [submit_next_ok jt rt jd ans nq o s h1 h2 hq]
      refine ⟨rfl, ?_, ?_⟩
      · intro e hf
        rw [hf]
        exact ⟨rfl, rfl⟩
      · intro e hq2
        cases hq2
  | error e0 =>
      rw [submit_next_err jt rt jd ans e0 o s h1 h2 hq]
      refine ⟨rfl, ?_, ?_⟩
      · intro e hf
        rw [hf]
        exact ⟨rfl, rfl⟩
      · intro e hq2
        exact ⟨rfl, rfl, rfl⟩

/-- Witness for C5 at concrete inputs: the feedback call raises, the
placeholder is appended, and the script is not stopped. -/
theorem model_failure_degrades_turn_witness :
    (submitResponse "Backend Engineer" "5 years Go" "Not provided"
        " My answer. " fbFailOracle
        { questions := ["Q1"], current_question := 0, responses := [],
          feedback := [], quit := false }).halted = false ∧
    (submitResponse "Backend Engineer" "5 years Go" "Not provided"
        " My answer. " fbFailOracle
        { questions := ["Q1"], current_question := 0, responses := [],
          feedback := [], quit := false }).state.feedback =
      ["Feedback generation failed."] := by
  have h := model_failure_degrades_turn "Backend Engineer" "5 years Go"
    "Not provided" " My answer. " fbFailOracle
    { questions := ["Q1"], current_question := 0, responses := [],
      feedback := [], quit := false } (by decide) (by decide)
  exact ⟨h.1, by simpa using (h.2.1 "rate limited" rfl).1⟩

/-- C7: with a job title or resume blank after stripping, Start Mock
Interview shows a warning, issues no model call, and leaves the session state
unchanged. -/
theorem start_missing_inputs_warns_noop (jt rt jd : String) (o : Oracle)
    (s : SessionState) (h : pyStrip jt = "" ∨ pyStrip rt = "") :
    startMockInterview jt rt jd o s =
      { state := s, calls := [], warned := true, errored := false,
        halted := false } :=
  start_invalid jt rt jd o s h

/-- Witness for C7 at concrete inputs. -/
theorem start_missing_inputs_warns_noop_witness :
    startMockInterview "   " "my resume" "Not provided" demoOracle
        { questions := ["Q1"], current_question := 0, responses := [],
          feedback := [], quit := false } =
      { state :=
          { questions := ["Q1"], current_question := 0, responses := [],
            feedback := [], quit := false },
        calls := [], warned := true, errored := false, halted := false } :=
  start_missing_inputs_warns_noop "   " "my resume" "Not provided" demoOracle
    { questions := ["Q1"], current_question := 0, responses := [],
      feedback := [], quit := false } (by decide)

/-- C10: a submitted answer that is blank after stripping is a silent no-op:
no model call, no warning, no error, and the state is unchanged. -/
theorem submit_blank_silent_noop (jt rt jd ans : String) (o : Oracle)
    (s : SessionState) (h : pyStrip ans = "") :
    submitResponse jt rt jd ans o s =
      { state := s, calls := [], warned := false, errored := false,
        halted := false } :=
  submit_blank jt rt jd ans o s h

/-- Witness for C10 at concrete inputs. -/
theorem submit_blank_silent_noop_witness :
    submitResponse "Backend Engineer" "5 years Go" "Not provided" "   "
        demoOracle
        { questions := ["Q1"], current_question := 0, responses := [],
          feedback := [], quit := false } =
      { state :=
          { questions := ["Q1"], current_question := 0, responses := [],
            feedback := [], quit := false },
        calls := [], warned := false, errored := false, halted := false } :=
  submit_blank_silent_noop "Backend Engineer" "5 years Go" "Not provided"
    "   " demoOracle
    { questions := ["Q1"], current_question := 0, responses := [],
      feedback := [], quit := false } (by decide)

/-! ### The exported report (C4) -/

/-- Zipping three lists where responses and feedback have equal length and
questions is at least as long yields exactly one triple per index. -/
theorem zip_triples_eq (qs rs fs : List String) (h1 : fs.length = rs.length)
    (h2 : rs.length ≤ qs.length) :
    qs.zip (rs.zip fs) = (List.range rs.length).map
      (fun i => (qs.getD i "", rs.getD i "", fs.getD i "")) := by
  induction rs generalizing qs fs with
  | nil =>
      cases fs with
      | nil => simp
      | cons f fs => simp at h1
  | cons r rs ih =>
      cases fs with
      | nil => simp at h1
      | cons f fs =>
          cases qs with
          | nil => simp at h2
          | cons q qs =>
              simp only [List.zip_cons_cons, List.length_cons,
                List.range_succ_eq_map, List.map_cons, List.map_map,
                List.getD_cons_zero]
              rw [ih qs fs (by simpa using h1) (by simpa using h2)]
              congr 1

/-- Zipping a list with itself pairs each element with itself. -/
theorem zip_self_eq_map (l : List Nat) : l.zip l = l.map fun i => (i, i) := by
  induction l with
  | nil => rfl
  | cons a l ih => simp [List.zip_cons_cons, ih]

/-- Enumerating `List.range n` pairs each index with itself. -/
theorem enum_range (n : Nat) :
    (List.range n).enum = (List.range n).map fun i => (i, i) := by
  rw [List.enum_eq_zip_range]
  simp [zip_self_eq_map]

/-- Enumerating a map over `List.range n` pairs each index with its image. -/
theorem enum_map_range {α : Type} (n : Nat) (g : Nat → α) :
    ((List.range n).map g).enum = (List.range n).map fun i => (i, g i) := by
  rw [List.enum_map, enum_range, List.map_map]
  rfl

/-- C4: when responses and feedback both have length `n` and questions has at
least `n` entries, the summary holds exactly `n` triples, the `i`-th being the
`i`-th question, answer and feedback, and `full_log` renders exactly those `n`
`Q`/`A`/`Feedback` triples in submission order. -/
theorem export_one_triple_per_turn (s : SessionState) (n : Nat)
    (h1 : s.responses.length = n) (h2 : s.feedback.length = n)
    (h3 : n ≤ s.questions.length) :
    (logTriples s).length = n ∧
    logTriples s = (List.range n).map
      (fun i => (s.questions.getD i "", s.responses.getD i "",
        s.feedback.getD i "")) ∧
    full_log s = String.intercalate "\n\n" ((List.range n).map fun i =>
      renderTriple (i + 1) (s.questions.getD i "") (s.responses.getD i "")
        (s.feedback.getD i "")) := by
  have hz : logTriples s = (List.range n).map
      (fun i => (s.questions.getD i "", s.responses.getD i "",
        s.feedback.getD i "")) := by
    unfold logTriples
    rw [zip_triples_eq s.questions s.responses s.feedback (by rw [h2, h1])
      (by rw [h1]; exact h3), h1]
  refine ⟨by rw [hz]; simp, hz, ?_⟩
  unfold full_log
  rw [hz, enum_map_range, List.map_map]
  rfl

/-- Witness for C4 at a concrete one-turn session. -/
theorem export_one_triple_per_turn_witness :
    (logTriples
        { questions := ["Q1", "Q2"], current_question := 1,
          responses := ["A1"], feedback := ["F1"], quit := true }).length = 1 ∧
    logTriples
        { questions := ["Q1", "Q2"], current_question := 1,
          responses := ["A1"], feedback := ["F1"], quit := true } =
      [("Q1", "A1", "F1")] ∧
    full_log
        { questions := ["Q1", "Q2"], current_question := 1,
          responses := ["A1"], feedback := ["F1"], quit := true } =
      "Q1: Q1\nA1: A1\nFeedback: F1" := by
  have h := export_one_triple_per_turn
    { questions := ["Q1", "Q2"], current_question := 1, responses := ["A1"],
      feedback := ["F1"], quit := true } 1 rfl rfl (by decide)
  refine ⟨h.1, ?_, ?_⟩
  · rw [h.2.1]
    decide
  · rw [h.2.2]
    decide

/-! ### Session lifecycle (C6) -/

/-- C6 counterexample: pressing End Interview Early on a session with one
completed turn does not clear the session state; the accumulated lists
survive with only the quit flag set. -/
theorem end_session_not_cleared :
    (endInterviewEarly
        { questions := ["Q1"], current_question := 1, responses := ["A1"],
          feedback := ["F1"], quit := false }).state =
      { questions := ["Q1"], current_question := 1, responses := ["A1"],
        feedback := ["F1"], quit := true } ∧
    (endInterviewEarly
        { questions := ["Q1"], current_question := 1, responses := ["A1"],
          feedback := ["F1"], quit := false }).state.questions ≠ [] := by
  decide

/-- C6 amended: the state is created empty at session start and grown one
element at a time per submitted answer; restarting via Start Mock Interview
fully clears it (before the new first question is appended); the End
Interview Early button sets only the quit flag, leaving the accumulated
lists intact for the summary view. -/
theorem session_lifecycle (s : SessionState) (jt rt jd ans nq : String)
    (o : Oracle)
    (h1 : pyStrip jt ≠ "") (h2 : pyStrip rt ≠ "")
    (h3 : ¬(pyLower (pyStrip ans) = "quit" ∨ pyLower (pyStrip ans) = "exit"))
    (h4 : pyStrip ans ≠ "")
    (h5 : o (ModelCall.questionCall jt rt jd
        (past_responses s.questions (s.responses ++ [pyStrip ans]))) =
      Except.ok nq) :
    initState =
      { questions := [], current_question := 0, responses := [],
        feedback := [], quit := false } ∧
    (startMockInterview jt rt jd o s).state.responses = [] ∧
    (startMockInterview jt rt jd o s).state.feedback = [] ∧
    (startMockInterview jt rt jd o s).state.current_question = 0 ∧
    (startMockInterview jt rt jd o s).state.questions.length ≤ 1 ∧
    (submitResponse jt rt jd ans o s).state.responses =
      s.responses ++ [pyStrip ans] ∧
    (submitResponse jt rt jd ans o s).state.feedback.length =
      s.feedback.length + 1 ∧
    (submitResponse jt rt jd ans o s).state.questions =
      s.questions ++ [pyStrip nq] ∧
    (endInterviewEarly s).state = { s with quit := true } := by
  cases hc : o (ModelCall.questionCall jt rt jd "") with
  | ok out =>
      rw [start_ok jt rt jd out o s h1 h2 hc,
        submit_next_ok jt rt jd ans nq o s h3 h4 h5]
      exact ⟨rfl, rfl, rfl, rfl, by simp, rfl, by simp, rfl, rfl⟩
  | error e =>
      rw [start_err jt rt jd e o s h1 h2 hc,
        submit_next_ok jt rt jd ans nq o s h3 h4 h5]
      exact ⟨rfl, rfl, rfl, rfl, Nat.zero_le 1, rfl, by simp, rfl, rfl⟩

/-- Witness for the amended C6 at concrete inputs. -/
theorem session_lifecycle_witness :
    (endInterviewEarly
        { questions := ["Q1"], current_question := 0, responses := [],
          feedback := [], quit := false }).state =
      { questions := ["Q1"], current_question := 0, responses := [],
        feedback := [], quit := true } ∧
    (submitResponse "Backend Engineer" "my resume" "Not provided" " A1. "
        demoOracle
        { questions := ["Q1"], current_question := 0, responses := [],
          feedback := [], quit := false }).state.responses = ["A1."] := by
  have h := session_lifecycle
    { questions := ["Q1"], current_question := 0, responses := [],
      feedback := [], quit := false }
    "Backend Engineer" "my resume" "Not provided" " A1. "
    " Tell me about a challenge. " demoOracle (by decide) (by decide)
    (by decide) (by decide) rfl
  exact ⟨h.2.2.2.2.2.2.2.2, by simpa using h.2.2.2.2.2.1⟩

/-! ### Startup credential check (C8) -/

/-- C8 counterexample: a credential present in the environment but set to the
empty string still shows the error and halts, so "present implies startup
proceeds" fails. -/
theorem empty_api_key_halts :
    (some "" : Option String) ≠ none ∧
    checkApiKey (some "") = { errorShown := true, halted := true } := by
  decide

/-- C8 amended: an absent credential shows a user-visible error and halts
before anything else runs; a present non-empty credential proceeds; a present
but empty-string credential is treated like an absent one and also halts. -/
theorem api_key_startup_check (k : String) (h : k ≠ "") :
    checkApiKey none = { errorShown := true, halted := true } ∧
    checkApiKey (some "") = { errorShown := true, halted := true } ∧
    checkApiKey (some k) = { errorShown := false, halted := false } := by
  refine ⟨rfl, rfl, ?_⟩
  simp [checkApiKey, h]

/-- Witness for the amended C8 at a concrete key. -/
theorem api_key_startup_check_witness :
    checkApiKey none = { errorShown := true, halted := true } ∧
    checkApiKey (some "") = { errorShown := true, halted := true } ∧
    checkApiKey (some "test-key-123") =
      { errorShown := false, halted := false } :=
  api_key_startup_check "test-key-123" (by decide)

/-! ### Length invariant (C9) -/

/-- The strengthened invariant implies the claimed one. -/
theorem strongInv_implies_lengthInv (s : SessionState) (h : strongInv s) :
    lengthInv s := by
  unfold strongInv at h
  unfold lengthInv
  obtain ⟨h1, h2⟩ := h
  refine ⟨h1, ?_⟩
  rcases h2 with h | ⟨hq, hr⟩ | ⟨_, h⟩
  · exact Or.inr h
  · left
    rw [hq, hr]
  · exact Or.inl h

/-- Every reachable state satisfies the strengthened invariant. -/
theorem reachable_strongInv (s : SessionState) (h : Reachable s) :
    strongInv s := by
  induction h with
  | init => exact ⟨rfl, Or.inr (Or.inl ⟨rfl, rfl⟩)⟩
  | start s jt rt jd o hr ih =>
      by_cases hv : pyStrip jt = "" ∨ pyStrip rt = ""
      · rw [start_invalid jt rt jd o s hv]
        exact ih
      · push_neg at hv
        cases hc : o (ModelCall.questionCall jt rt jd "") with
        | ok out =>
            rw [start_ok jt rt jd out o s hv.1 hv.2 hc]
            exact ⟨rfl, Or.inl rfl⟩
        | error e =>
            rw [start_err jt rt jd e o s hv.1 hv.2 hc]
            exact ⟨rfl, Or.inr (Or.inl ⟨rfl, rfl⟩)⟩
  | submit s jt rt jd ans o hr hq hlt ih =>
      unfold strongInv at ih
      obtain ⟨ihf, ihq⟩ := ih
      have hq1 : s.questions.length = s.responses.length + 1 := by
        rcases ihq with h | ⟨h1, _⟩ | ⟨h1, _⟩
        · exact h
        · rw [h1] at hlt
          simp at hlt
        · rw [hq] at h1
          simp at h1
      by_cases hs : pyLower (pyStrip ans) = "quit" ∨
          pyLower (pyStrip ans) = "exit"
      · rw [submit_sentinel jt rt jd ans o s hs]
        exact ⟨ihf, Or.inl hq1⟩
      · by_cases he : pyStrip ans = ""
        · rw [submit_blank jt rt jd ans o s he]
          exact ⟨ihf, ihq⟩
        · cases hc : o (ModelCall.questionCall jt rt jd
              (past_responses s.questions (s.responses ++ [pyStrip ans]))) with
          | ok nq =>
              rw [submit_next_ok jt rt jd ans nq o s hs he hc]
              exact ⟨by simp [ihf], Or.inl (by simp [hq1])⟩
          | error e =>
              rw [submit_next_err jt rt jd ans e o s hs he hc]
              exact ⟨by simp [ihf], Or.inr (Or.inr ⟨rfl, by simp [hq1]⟩)⟩
  | endEarly s hr ih =>
      unfold strongInv at ih ⊢
      obtain ⟨ihf, ihq⟩ := ih
      refine ⟨ihf, ?_⟩
      rcases ihq with h | h | h
      · exact Or.inl h
      · exact Or.inr (Or.inl h)
      · exact Or.inr (Or.inr ⟨rfl, h.2⟩)

/-- C9: every reachable session state satisfies the length invariant
(responses and feedback have equal length; questions has that length or one
more), and each user action — starting, submitting while the form is
displayed, or ending early — yields a state that satisfies it again. -/
theorem actions_preserve_lengthInv (s : SessionState) (h : Reachable s) :
    lengthInv s ∧
    (∀ jt rt jd o, lengthInv (startMockInterview jt rt jd o s).state) ∧
    (∀ jt rt jd ans o, s.quit = false →
      s.current_question < s.questions.length →
      lengthInv (submitResponse jt rt jd ans o s).state) ∧
    lengthInv (endInterviewEarly s).state := by
  refine ⟨strongInv_implies_lengthInv s (reachable_strongInv s h),
    fun jt rt jd o => strongInv_implies_lengthInv _
      (reachable_strongInv _ (Reachable.start s jt rt jd o h)),
    fun jt rt jd ans o hq hl => strongInv_implies_lengthInv _
      (reachable_strongInv _ (Reachable.submit s jt rt jd ans o h hq hl)),
    strongInv_implies_lengthInv _
      (reachable_strongInv _ (Reachable.endEarly s h))⟩

/-- Witness for C9 at the initial state. -/
theorem actions_preserve_lengthInv_witness :
    lengthInv initState ∧ lengthInv (endInterviewEarly initState).state := by
  have h := actions_preserve_lengthInv initState Reachable.init
  exact ⟨h.1, h.2.2.2⟩
